import Mathlib

/-! Verification of the redlib dispatch layer (src/main.rs): default response
headers and HSTS insertion, the registered route table and catch-all
resolution, proxy URL templates, the TTL-cached fetchers, the robots.txt
policy, startup control flow, bundled-asset decoding in the style handler,
listener selection, and the byte-to-char decoding of upstream bodies. -/

namespace Redlib

/-- An HTTP response as it flows through the server: status code, a list of
header name/value pairs, and a body string. -/
structure HttpResponse where
  status : Nat
  headers : List (String × String)
  body : String
deriving DecidableEq, Repr

/-- Insertion into a header map, as hyper's HeaderMap::insert: the new pair
replaces any existing pairs with the same name. -/
def insertHeader (hs : List (String × String)) (kv : String × String) : List (String × String) :=
  kv :: hs.filter (fun p => !(p.1 == kv.1))

/-- Number of header pairs carrying the name k. -/
def countKey (k : String) (hs : List (String × String)) : Nat :=
  hs.countP (fun p => p.1 == k)

/-- Merge a list of default headers into a response header map, inserting each
default pair once, in order (models `res.headers_mut().insert` applied per
default header by the dispatcher). -/
def mergeDefaults (ds : List (String × String)) (hs : List (String × String)) : List (String × String) :=
  ds.foldl insertHeader hs

/-- The four fixed default headers of src/main.rs lines 210-215
(the `headers!` block). -/
def defaultHeadersBase : List (String × String) :=
  [("Referrer-Policy", "no-referrer"),
   ("X-Content-Type-Options", "nosniff"),
   ("X-Frame-Options", "DENY"),
   ("Content-Security-Policy", "default-src \x27none\x27; font-src \x27self\x27; script-src \x27self\x27 blob:; manifest-src \x27self\x27; media-src \x27self\x27 data: blob: about:; style-src \x27self\x27 \x27unsafe-inline\x27; base-uri \x27none\x27; img-src \x27self\x27 data:; form-action \x27self\x27; frame-ancestors \x27none\x27; connect-src \x27self\x27; worker-src blob:;")]

/-- Validity of a string as a hyper HeaderValue (HeaderValue::from_str
succeeds iff every byte is tab or in 32..=255 excluding 127; stated on chars,
which is equivalent since multi-byte UTF-8 chars encode to bytes >= 128). -/
def headerValueValid (s : String) : Bool :=
  s.data.all (fun c => c.toNat == 9 || (32 ≤ c.toNat && c.toNat ≠ 127))

/-- The hsts command-line value as produced by clap: the --hsts argument has
default_value "604800" (src/main.rs lines 151-159), so get_one always returns
a value: the explicitly passed one, or the default. -/
def hstsValue (explicit : Option String) : Option String :=
  some (explicit.getD "604800")

/-- The full default header set (src/main.rs lines 210-221): the fixed base
headers, plus Strict-Transport-Security max-age=expire inserted when hsts is
Some and the formatted value passes header-value validation. -/
def defaultHeaders (hsts : Option String) : List (String × String) :=
  match hsts with
  | none => defaultHeadersBase
  | some expire =>
    if headerValueValid ("max-age=" ++ expire) then
      insertHeader defaultHeadersBase ("Strict-Transport-Security", "max-age=" ++ expire)
    else
      defaultHeadersBase

/-- Modelled from the spec: the Dispatcher (redlib::server::Server, not under
src/) merges the default header set into every outgoing response exactly once,
whichever handler produced it. -/
def respond (hsts : Option String) (r : HttpResponse) : HttpResponse :=
  { r with headers := mergeDefaults (defaultHeaders hsts) r.headers }

/-- The successful static-asset response produced by the style handler
(src/main.rs lines 101-108), before default headers are merged. -/
def styleSuccessResponse (body : String) : HttpResponse :=
  { status := 200,
    headers := [("content-type", "text/css"),
                ("Cache-Control", "public, max-age=1209600, s-maxage=86400")],
    body := body }

/-- Modelled from the spec: redlib::utils::error (not under src/) renders the
catch-all message as a generic error response whose body contains it. -/
def errorBody (msg : String) : String := msg

/-- Modelled from the spec: the catch-all error response, before default
headers are merged. -/
def catchAllErrorResponse (msg : String) : HttpResponse :=
  { status := 404, headers := [("content-type", "text/html")], body := errorBody msg }

theorem countKey_filter_self (hs : List (String × String)) (k : String) :
    countKey k (hs.filter (fun p => !(p.1 == k))) = 0 := by
  unfold countKey
  rw [List.countP_filter]
  rw [List.countP_eq_zero]
  intro p _
  cases hp : (p.1 == k) <;> simp [hp]

theorem countKey_filter_other (hs : List (String × String)) (k k2 : String)
    (h : k ≠ k2) :
    countKey k (hs.filter (fun p => !(p.1 == k2))) = countKey k hs := by
  unfold countKey
  rw [List.countP_filter]
  apply List.countP_congr
  intro p _
  cases hp : (p.1 == k)
  · simp [hp]
  · have hk : p.1 = k := eq_of_beq hp
    have h2 : (p.1 == k2) = false := beq_eq_false_iff_ne.2 (by rw [hk]; exact h)
    simp [hp, h2]

theorem countKey_insertHeader_self (hs : List (String × String)) (k v : String) :
    countKey k (insertHeader hs (k, v)) = 1 := by
  have h0 := countKey_filter_self hs k
  unfold countKey at h0 ⊢
  simp only [insertHeader, List.countP_cons]
  simp [h0]

theorem countKey_insertHeader_other (hs : List (String × String)) (k : String)
    (kv : String × String) (h : k ≠ kv.1) :
    countKey k (insertHeader hs kv) = countKey k hs := by
  have h0 := countKey_filter_other hs k kv.1 h
  unfold countKey at h0 ⊢
  simp only [insertHeader, List.countP_cons]
  have hb : (kv.1 == k) = false := beq_eq_false_iff_ne.2 (Ne.symm h)
  simp [h0, hb]

theorem countKey_mergeDefaults_notmem (ds : List (String × String))
    (hs : List (String × String)) (k : String)
    (h : k ∉ ds.map Prod.fst) :
    countKey k (mergeDefaults ds hs) = countKey k hs := by
  induction ds generalizing hs with
  | nil => rfl
  | cons d rest ih =>
    simp only [List.map_cons, List.mem_cons, not_or] at h
    rw [show mergeDefaults (d :: rest) hs = mergeDefaults rest (insertHeader hs d) from rfl]
    rw [ih (insertHeader hs d) h.2, countKey_insertHeader_other hs k d h.1]

theorem countKey_mergeDefaults_mem (ds : List (String × String))
    (hs : List (String × String)) (k : String)
    (hnd : (ds.map Prod.fst).Nodup) (hk : k ∈ ds.map Prod.fst) :
    countKey k (mergeDefaults ds hs) = 1 := by
  induction ds generalizing hs with
  | nil => simp at hk
  | cons d rest ih =>
    simp only [List.map_cons, List.nodup_cons] at hnd
    simp only [List.map_cons, List.mem_cons] at hk
    rw [show mergeDefaults (d :: rest) hs = mergeDefaults rest (insertHeader hs d) from rfl]
    rcases hk with hk | hk
    · subst hk
      rw [countKey_mergeDefaults_notmem rest (insertHeader hs d) d.1 hnd.1]
      exact countKey_insertHeader_self hs d.1 d.2
    · exact ih (insertHeader hs d) hnd.2 hk

theorem defaultHeaders_keys_none :
    (defaultHeaders none).map Prod.fst = defaultHeadersBase.map Prod.fst := rfl

theorem defaultHeaders_keys_valid (expire : String)
    (h : headerValueValid ("max-age=" ++ expire) = true) :
    (defaultHeaders (some expire)).map Prod.fst =
      "Strict-Transport-Security" :: defaultHeadersBase.map Prod.fst := by
  simp only [defaultHeaders]
  rw [if_pos h]
  rfl

theorem defaultHeaders_keys_invalid (expire : String)
    (h : headerValueValid ("max-age=" ++ expire) = false) :
    defaultHeaders (some expire) = defaultHeadersBase := by
  simp only [defaultHeaders]
  rw [if_neg (by simp [h])]

theorem defaultHeaders_keys_nodup (hsts : Option String) :
    ((defaultHeaders hsts).map Prod.fst).Nodup := by
  cases hsts with
  | none => decide
  | some expire =>
    cases h : headerValueValid ("max-age=" ++ expire) with
    | true =>
      rw [defaultHeaders_keys_valid expire h]
      decide
    | false =>
      rw [defaultHeaders_keys_invalid expire h]
      decide

theorem countKey_pos_mem (k : String) (hs : List (String × String))
    (h : 0 < countKey k hs) : k ∈ hs.map Prod.fst := by
  rw [countKey, List.countP_pos_iff] at h
  obtain ⟨p, hp, hpk⟩ := h
  have hk : p.1 = k := eq_of_beq hpk
  exact hk ▸ List.mem_map_of_mem Prod.fst hp

/-! Router model. Modelled from the spec (redlib::server, not under src/):
a pattern is an ordered sequence of segment matchers — literal, named
(`:name`, one segment), or wildcard (`*name`, all remaining segments joined
with `/`, legal only as the final segment); paths are split on `/` with empty
segments collapsed; routes are tried in registration order and the first
structural match wins. The route table itself is transcribed from
src/main.rs lines 224-301. -/

/-- A single path-segment matcher. -/
inductive Matcher where
  | lit (s : String)
  | named (n : String)
  | wild (n : String)
deriving DecidableEq, Repr

/-- Split a character list on a separator character. -/
def splitOnChar (sep : Char) : List Char → List (List Char)
  | [] => [[]]
  | c :: rest =>
    if c = sep then
      [] :: splitOnChar sep rest
    else
      match splitOnChar sep rest with
      | [] => [[c]]
      | g :: gs => (c :: g) :: gs

/-- Split a path (or pattern) into its nonempty `/`-separated segments. -/
def pathSegments (p : String) : List String :=
  ((splitOnChar '/' p.data).map (fun cs => String.mk cs)).filter (fun s => !(s == ""))

/-- Parse one pattern segment: a leading `:` gives a named matcher, a leading
`*` a wildcard matcher, anything else a literal. -/
def parseSegment (s : String) : Matcher :=
  match s.data with
  | ':' :: rest => Matcher.named (String.mk rest)
  | '*' :: rest => Matcher.wild (String.mk rest)
  | _ => Matcher.lit s

/-- Parse a route pattern string into its matcher sequence. -/
def parsePattern (p : String) : List Matcher :=
  (pathSegments p).map parseSegment

/-- The parameter names declared by a matcher sequence. -/
def matcherNames (ms : List Matcher) : List String :=
  ms.filterMap (fun m =>
    match m with
    | Matcher.lit _ => none
    | Matcher.named n => some n
    | Matcher.wild n => some n)

/-- Match a matcher sequence against path segments, producing the captured
parameter set on success: literals must be equal, a named matcher captures
exactly one segment, a final wildcard captures all remaining segments joined
with `/`. -/
def matchSegs : List Matcher → List String → Option (List (String × String))
  | [], [] => some []
  | [], _ :: _ => none
  | Matcher.lit _ :: _, [] => none
  | Matcher.lit s :: ms, seg :: segs =>
    if seg = s then matchSegs ms segs else none
  | Matcher.named _ :: _, [] => none
  | Matcher.named n :: ms, seg :: segs =>
    (matchSegs ms segs).map (fun ps => (n, seg) :: ps)
  | Matcher.wild n :: ms, segs =>
    match ms with
    | [] => some [(n, String.intercalate "/" segs)]
    | _ :: _ => none

/-- The handler bound to a route in src/main.rs. -/
inductive HandlerTag where
  | styleCss
  | manifest
  | robots
  | favicon
  | pwaLogo
  | font
  | iphoneLogo
  | opensearch
  | playHLSVideo
  | hlsMin
  | highlighted
  | checkUpdate
  | copyJs
  | commitsAtom
  | instancesJson
  | proxyTo (template : String)
  | settingsGet
  | settingsSet
  | settingsRestore
  | settingsEncodedRestore
  | settingsUpdate
  | community
  | communityRss
  | infoPage
  | errorPage (msg : String)
deriving DecidableEq, Repr

/-- A registered route: method, pattern string, bound handler. -/
structure Route where
  method : String
  pattern : String
  handler : HandlerTag
deriving DecidableEq, Repr

/-- The route table of src/main.rs lines 224-301, in registration order. -/
def routeTable : List Route :=
  [⟨"GET", "/style.css", HandlerTag.styleCss⟩,
   ⟨"GET", "/manifest.json", HandlerTag.manifest⟩,
   ⟨"GET", "/robots.txt", HandlerTag.robots⟩,
   ⟨"GET", "/favicon.ico", HandlerTag.favicon⟩,
   ⟨"GET", "/logo.png", HandlerTag.pwaLogo⟩,
   ⟨"GET", "/Inter.var.woff2", HandlerTag.font⟩,
   ⟨"GET", "/touch-icon-iphone.png", HandlerTag.iphoneLogo⟩,
   ⟨"GET", "/apple-touch-icon.png", HandlerTag.iphoneLogo⟩,
   ⟨"GET", "/opensearch.xml", HandlerTag.opensearch⟩,
   ⟨"GET", "/playHLSVideo.js", HandlerTag.playHLSVideo⟩,
   ⟨"GET", "/hls.min.js", HandlerTag.hlsMin⟩,
   ⟨"GET", "/highlighted.js", HandlerTag.highlighted⟩,
   ⟨"GET", "/check_update.js", HandlerTag.checkUpdate⟩,
   ⟨"GET", "/copy.js", HandlerTag.copyJs⟩,
   ⟨"GET", "/commits.atom", HandlerTag.commitsAtom⟩,
   ⟨"GET", "/instances.json", HandlerTag.instancesJson⟩,
   ⟨"GET", "/vid/:id/:size", HandlerTag.proxyTo "https://v.redd.it/{id}/DASH_{size}"⟩,
   ⟨"GET", "/hls/:id/*path", HandlerTag.proxyTo "https://v.redd.it/{id}/{path}"⟩,
   ⟨"GET", "/img/*path", HandlerTag.proxyTo "https://i.redd.it/{path}"⟩,
   ⟨"GET", "/thumb/:point/:id", HandlerTag.proxyTo "https://{point}.thumbs.redditmedia.com/{id}"⟩,
   ⟨"GET", "/emoji/:id/:name", HandlerTag.proxyTo "https://emoji.redditmedia.com/{id}/{name}"⟩,
   ⟨"GET", "/emote/:subreddit_id/:filename", HandlerTag.proxyTo "https://reddit-econ-prod-assets-permanent.s3.amazonaws.com/asset-manager/{subreddit_id}/{filename}"⟩,
   ⟨"GET", "/preview/:loc/award_images/:fullname/:id", HandlerTag.proxyTo "https://{loc}view.redd.it/award_images/{fullname}/{id}"⟩,
   ⟨"GET", "/preview/:loc/:id", HandlerTag.proxyTo "https://{loc}view.redd.it/{id}"⟩,
   ⟨"GET", "/style/*path", HandlerTag.proxyTo "https://styles.redditmedia.com/{path}"⟩,
   ⟨"GET", "/static/*path", HandlerTag.proxyTo "https://www.redditstatic.com/{path}"⟩,
   ⟨"GET", "/settings", HandlerTag.settingsGet⟩,
   ⟨"POST", "/settings", HandlerTag.settingsSet⟩,
   ⟨"GET", "/settings/restore", HandlerTag.settingsRestore⟩,
   ⟨"POST", "/settings/encoded-restore", HandlerTag.settingsEncodedRestore⟩,
   ⟨"GET", "/settings/update", HandlerTag.settingsUpdate⟩,
   ⟨"GET", "/r/popular", HandlerTag.community⟩,
   ⟨"GET", "/r/popular/:sort", HandlerTag.community⟩,
   ⟨"GET", "/r/popular.rss", HandlerTag.communityRss⟩,
   ⟨"GET", "/", HandlerTag.community⟩,
   ⟨"GET", "/info", HandlerTag.infoPage⟩,
   ⟨"GET", "/info.:extension", HandlerTag.infoPage⟩,
   ⟨"GET", "/*", HandlerTag.errorPage "Nothing here"⟩]

/-- Resolve a (method, path) pair against a route list: first structurally
matching route, in registration order, wins. -/
def resolve (method path : String) : List Route → Option (Route × List (String × String))
  | [] => none
  | r :: rest =>
    if r.method = method then
      match matchSegs (parsePattern r.pattern) (pathSegments path) with
      | some ps => some (r, ps)
      | none => resolve method path rest
    else
      resolve method path rest

/-- A fragment of a parsed proxy URL template: literal text or a named
placeholder. -/
inductive Chunk where
  | lit (s : String)
  | hole (n : String)
deriving DecidableEq, Repr

/-- The opening-brace character of a template placeholder. -/
def lbrace : Char := Char.ofNat 123

/-- The closing-brace character of a template placeholder. -/
def rbrace : Char := Char.ofNat 125

/-- Fuel-indexed template scanner: a brace-delimited run becomes a hole, any
other maximal run becomes a literal. Fuel bounds the recursion; each step
consumes at least one character, so fuel = input length is enough. -/
def parseChunksAux : Nat → List Char → List Chunk
  | 0, _ => []
  | _, [] => []
  | fuel + 1, c :: rest =>
    if c = lbrace then
      Chunk.hole (String.mk (rest.takeWhile (fun d => !(d = rbrace)))) ::
        parseChunksAux fuel ((rest.dropWhile (fun d => !(d = rbrace))).drop 1)
    else
      Chunk.lit (String.mk ((c :: rest).takeWhile (fun d => !(d = lbrace)))) ::
        parseChunksAux fuel ((c :: rest).dropWhile (fun d => !(d = lbrace)))

/-- Parse a proxy URL template into its chunks. -/
def parseTemplateChunks (t : String) : List Chunk :=
  parseChunksAux t.data.length t.data

/-- The placeholder names appearing in a template. -/
def placeholders (t : String) : List String :=
  (parseTemplateChunks t).filterMap (fun c =>
    match c with
    | Chunk.lit _ => none
    | Chunk.hole n => some n)

/-- The parameter names declared by a route pattern. -/
def patternParams (p : String) : List String :=
  matcherNames (parsePattern p)

/-- Substitute a captured parameter set into template chunks; a hole whose
name is absent from the parameter set is the TemplateSubstitutionError case
and yields none. -/
def substChunks (ps : List (String × String)) : List Chunk → Option String
  | [] => some ""
  | Chunk.lit s :: cs => (substChunks ps cs).map (fun r => s ++ r)
  | Chunk.hole n :: cs =>
    match ps.lookup n with
    | some v => (substChunks ps cs).map (fun r => v ++ r)
    | none => none

/-- Substitute a captured parameter set into a proxy URL template. -/
def substTemplate (ps : List (String × String)) (t : String) : Option String :=
  substChunks ps (parseTemplateChunks t)

/-- Modelled from the spec: route/template registration validates that every
template placeholder is among the pattern's declared parameter names, and
rejects the pairing with a configuration error otherwise. -/
def registerProxy (pattern template : String) : Except String (String × String) :=
  if (placeholders template).all (fun n => (patternParams pattern).contains n) then
    Except.ok (pattern, template)
  else
    Except.error "TemplateSubstitutionError: template references an undeclared parameter"

/-- The proxy route/template pairings of src/main.rs lines 267-280. -/
def proxyRoutes : List (String × String) :=
  (routeTable.filterMap (fun r =>
    match r.handler with
    | HandlerTag.proxyTo t => some (r.pattern, t)
    | _ => none))

theorem matchSegs_covers (ms : List Matcher) :
    ∀ segs ps, matchSegs ms segs = some ps →
      ∀ n ∈ matcherNames ms, (ps.lookup n).isSome := by
  induction ms with
  | nil =>
    intro segs ps _ n hn
    simp [matcherNames] at hn
  | cons m rest ih =>
    intro segs ps h n hn
    cases m with
    | lit s =>
      cases segs with
      | nil => simp [matchSegs] at h
      | cons seg segs2 =>
        simp only [matchSegs] at h
        split at h
        · simp only [matcherNames, List.filterMap_cons] at hn
          exact ih segs2 ps h n hn
        · exact absurd h (by simp)
    | named n2 =>
      cases segs with
      | nil => simp [matchSegs] at h
      | cons seg segs2 =>
        simp only [matchSegs] at h
        cases hm : matchSegs rest segs2 with
        | none => rw [hm] at h; simp at h
        | some ps2 =>
          rw [hm] at h
          simp only [Option.map_some'] at h
          obtain rfl : (n2, seg) :: ps2 = ps := Option.some_injective _ h
          simp only [matcherNames, List.filterMap_cons] at hn
          simp only [List.mem_cons] at hn
          rcases hn with rfl | hn
          · simp [List.lookup]
          · cases hb : (n == n2) with
            | true =>
              have hn2 : n = n2 := eq_of_beq hb
              simp [List.lookup, hn2]
            | false =>
              have hrec := ih segs2 ps2 hm n hn
              simp [List.lookup, hb, hrec]
    | wild n2 =>
      cases rest with
      | nil =>
        simp only [matchSegs] at h
        obtain rfl := Option.some_injective _ h.symm
        simp only [matcherNames, List.filterMap_cons, List.filterMap_nil] at hn
        simp only [List.mem_cons, List.not_mem_nil, or_false] at hn
        subst hn
        simp [List.lookup]
      | cons m2 rest2 =>
        simp [matchSegs] at h

/-! TTL cache, robots policy, startup flow, asset decoding, listener
selection, and upstream body decoding. -/

/-- A cache entry: the stored value and the time it was computed.
From the spec data model CacheEntry. -/
structure CacheEntry (α : Type) where
  value : α
  computedAt : Nat
deriving DecidableEq, Repr

/-- Modelled from the spec: the TTL memoization applied to fetch_commit_info
and fetch_instances by the cached crate (ttl 600s; the crate is not under
src/). If an entry exists and now - computedAt < ttl, the stored value is
returned without invoking the producer; otherwise the producer runs and its
result is stored with computedAt = now. Returns (value, new state, whether
the producer was invoked). -/
def memoize {α : Type} (ttl now : Nat) (producer : Unit → α)
    (st : Option (CacheEntry α)) : α × Option (CacheEntry α) × Bool :=
  match st with
  | some e =>
    if now - e.computedAt < ttl then
      (e.value, some e, false)
    else
      let v := producer ()
      (v, some ⟨v, now⟩, true)
  | none =>
    let v := producer ()
    (v, some ⟨v, now⟩, true)

/-- An inbound HTTP request, as far as the dispatch layer inspects it. -/
structure Request where
  method : String
  path : String
deriving DecidableEq, Repr

/-- Modelled from the spec: config::get_setting (redlib::config, not under
src/) reads a setting from the CONFIG static, which is computed once at
startup (LazyLock::force in main, src/main.rs line 203); modelled as a lookup
in the startup-time setting map. -/
def getSetting (cfg : List (String × String)) (key : String) : Option String :=
  cfg.lookup key

/-- The robots.txt disable-indexing switch of src/main.rs lines 230-233:
true exactly when the REDLIB_ROBOTS_DISABLE_INDEXING setting is "on". -/
def robotsDisableIndexing (cfg : List (String × String)) : Bool :=
  match getSetting cfg "REDLIB_ROBOTS_DISABLE_INDEXING" with
  | some val => val == "on"
  | none => false

/-- The resource helper of src/main.rs lines 78-92: a 200 response with the
given body and content type, plus a Cache-Control header when cache is
set. -/
def resourceResponse (body contentType : String) (cache : Bool) : HttpResponse :=
  { status := 200,
    headers :=
      ("content-type", contentType) ::
        (if cache then [("Cache-Control", "public, max-age=1209600, s-maxage=86400")] else []),
    body := body }

/-- The /robots.txt handler of src/main.rs lines 228-242: the body is the
disallow-all policy when the disable-indexing setting is "on", and the
user-profile-only policy otherwise; the request itself is never consulted. -/
def robotsHandler (cfg : List (String × String)) (_ : Request) : HttpResponse :=
  resourceResponse
    (if robotsDisableIndexing cfg then
      "User-agent: *\nDisallow: /"
    else
      "User-agent: *\nDisallow: /u/\nDisallow: /user/")
    "text/plain"
    true

/-- An observable event of the startup sequence in main. -/
inductive LogEvent where
  | infoMsg (msg : String)
  | warnMsg (msg : String)
  | printOut (msg : String)
  | printErr (msg : String)
deriving DecidableEq, Repr

/-- The outcome of running main: the logged events, how many routes were
registered, whether the listener was started, and the fatal server error, if
any, with which the process exited. -/
structure MainTrace where
  events : List LogEvent
  routesRegistered : Nat
  listened : Bool
  exitError : Option String
deriving DecidableEq, Repr

/-- The startup control flow of main (src/main.rs lines 162-174 and 303-310):
the rate-limit probe result is matched, logging info on success and a warning
plus stderr text on failure, and in both cases execution continues to route
registration and listening; a server (bind) failure is printed to stderr and
ends the process. -/
def mainFlow (rateLimit : Except String Unit) (bindResult : Except String Unit) : MainTrace :=
  let rateEvents :=
    match rateLimit with
    | Except.ok _ => [LogEvent.infoMsg "Rate limit check passed"]
    | Except.error e =>
      let message := "Rate limit check failed: " ++ e ++
        "\nThis may cause issues with the rate limit.\nPlease report this error with the above information."
      [LogEvent.warnMsg message, LogEvent.printErr message]
  let registered := routeTable.length
  match bindResult with
  | Except.ok _ =>
    { events := rateEvents, routesRegistered := registered,
      listened := true, exitError := none }
  | Except.error e =>
    { events := rateEvents ++ [LogEvent.printErr ("Server error: " ++ e)],
      routesRegistered := registered, listened := true,
      exitError := some ("Server error: " ++ e) }

/-- Is a byte a UTF-8 continuation byte (0x80..0xBF)? -/
def isContByte (b : Nat) : Bool :=
  128 ≤ b && b ≤ 191

/-- UTF-8 decoding of a byte list, as Rust std::str::from_utf8 validates it:
returns the decoded code points, or none exactly when the bytes are not valid
UTF-8 (overlong forms, surrogates, and out-of-range values all rejected). -/
def utf8Decode : List Nat → Option (List Nat)
  | [] => some []
  | b :: rest =>
    if b < 128 then
      (utf8Decode rest).map (fun cs => b :: cs)
    else if 194 ≤ b && b ≤ 223 then
      match rest with
      | c1 :: rest2 =>
        if isContByte c1 then
          (utf8Decode rest2).map (fun cs => ((b - 192) * 64 + (c1 - 128)) :: cs)
        else none
      | [] => none
    else if b = 224 then
      match rest with
      | c1 :: c2 :: rest2 =>
        if (160 ≤ c1 && c1 ≤ 191) && isContByte c2 then
          (utf8Decode rest2).map (fun cs =>
            ((b - 224) * 4096 + (c1 - 128) * 64 + (c2 - 128)) :: cs)
        else none
      | _ => none
    else if (225 ≤ b && b ≤ 236) || b = 238 || b = 239 then
      match rest with
      | c1 :: c2 :: rest2 =>
        if isContByte c1 && isContByte c2 then
          (utf8Decode rest2).map (fun cs =>
            ((b - 224) * 4096 + (c1 - 128) * 64 + (c2 - 128)) :: cs)
        else none
      | _ => none
    else if b = 237 then
      match rest with
      | c1 :: c2 :: rest2 =>
        if (128 ≤ c1 && c1 ≤ 159) && isContByte c2 then
          (utf8Decode rest2).map (fun cs =>
            ((b - 224) * 4096 + (c1 - 128) * 64 + (c2 - 128)) :: cs)
        else none
      | _ => none
    else if b = 240 then
      match rest with
      | c1 :: c2 :: c3 :: rest2 =>
        if (144 ≤ c1 && c1 ≤ 191) && isContByte c2 && isContByte c3 then
          (utf8Decode rest2).map (fun cs =>
            ((b - 240) * 262144 + (c1 - 128) * 4096 + (c2 - 128) * 64 + (c3 - 128)) :: cs)
        else none
      | _ => none
    else if 241 ≤ b && b ≤ 243 then
      match rest with
      | c1 :: c2 :: c3 :: rest2 =>
        if isContByte c1 && isContByte c2 && isContByte c3 then
          (utf8Decode rest2).map (fun cs =>
            ((b - 240) * 262144 + (c1 - 128) * 4096 + (c2 - 128) * 64 + (c3 - 128)) :: cs)
        else none
      | _ => none
    else if b = 244 then
      match rest with
      | c1 :: c2 :: c3 :: rest2 =>
        if (128 ≤ c1 && c1 ≤ 143) && isContByte c2 && isContByte c3 then
          (utf8Decode rest2).map (fun cs =>
            ((b - 240) * 262144 + (c1 - 128) * 4096 + (c2 - 128) * 64 + (c3 - 128)) :: cs)
        else none
      | _ => none
    else
      none

/-- The style handler of src/main.rs lines 94-109: it starts from the bundled
base stylesheet and, per request, appends each theme asset decoded with
std::str::from_utf8(...).unwrap(). The unwrap is modelled by Option: a none
result is the unrecoverable mid-request abort (panic). -/
def styleHandler (baseCss : String) (themes : List (List Nat)) : Option HttpResponse :=
  (themes.foldl
    (fun acc t =>
      acc.bind (fun s =>
        (utf8Decode t).map (fun cs =>
          s ++ "\n" ++ String.mk (cs.map Char.ofNat))))
    (some baseCss)).map
    (fun body =>
      { status := 200,
        headers := [("content-type", "text/css"),
                    ("Cache-Control", "public, max-age=1209600, s-maxage=86400")],
        body := body })

/-- The listener-selection logic of src/main.rs lines 180-189: the IPV4_ONLY
and IPV6_ONLY environment variables are tested for presence only
(std::env::var(..).is_ok()), ored with the corresponding CLI flags; ipv4-only
is tested first, then ipv6-only, and only otherwise is the configured address
used. -/
def listenerOf (envIPv4 envIPv6 : Option String) (flag4 flag6 : Bool)
    (address port : String) : String :=
  let ipv4Only := envIPv4.isSome || flag4
  let ipv6Only := envIPv6.isSome || flag6
  if ipv4Only then
    "0.0.0.0:" ++ port
  else if ipv6Only then
    "[::]:" ++ port
  else
    address ++ ":" ++ port

/-- The upstream-body decoding shared by fetch_commit_info (src/main.rs line
329) and fetch_instances (line 348): bytes.iter().copied().map(|x| x as
char).collect() — each byte b becomes the character with code point b. -/
def bodyToChars (bytes : List (Fin 256)) : List Char :=
  bytes.map (fun b => Char.ofNat b.val)

theorem substChunks_total (ps : List (String × String)) (cs : List Chunk)
    (h : ∀ n, Chunk.hole n ∈ cs → (ps.lookup n).isSome) :
    (substChunks ps cs).isSome := by
  induction cs with
  | nil => simp [substChunks]
  | cons c rest ih =>
    cases c with
    | lit s =>
      have := ih (fun n hn => h n (List.mem_cons_of_mem _ hn))
      simp only [substChunks]
      cases hr : substChunks ps rest with
      | none => rw [hr] at this; simp at this
      | some v => simp [hr]
    | hole n =>
      have hl := h n (List.mem_cons_self _ _)
      have := ih (fun n2 hn => h n2 (List.mem_cons_of_mem _ hn))
      simp only [substChunks]
      cases hpn : ps.lookup n with
      | none => rw [hpn] at hl; simp at hl
      | some v =>
        cases hr : substChunks ps rest with
        | none => rw [hr] at this; simp at this
        | some r => simp [hr]

theorem proxyRoutes_placeholders_sub (pt : String × String)
    (hpt : pt ∈ proxyRoutes) (n : String) (hn : n ∈ placeholders pt.2) :
    n ∈ patternParams pt.1 := by
  have hall : proxyRoutes.all
      (fun q => (placeholders q.2).all (fun m => (patternParams q.1).contains m)) = true := by
    decide
  rw [List.all_eq_true] at hall
  have h2 := hall pt hpt
  rw [List.all_eq_true] at h2
  have h3 := h2 n hn
  exact List.elem_iff.mp h3

set_option maxRecDepth 4096 in
theorem charOfNat_toNat_fin256 : ∀ b : Fin 256, (Char.ofNat b.val).toNat = b.val := by
  decide

theorem resolve_append_none (method path : String) (l1 l2 : List Route)
    (h : resolve method path l1 = none) :
    resolve method path (l1 ++ l2) = resolve method path l2 := by
  induction l1 with
  | nil => rfl
  | cons r rest ih =>
    rw [List.cons_append]
    by_cases hm : r.method = method
    · simp only [resolve, if_pos hm] at h ⊢
      cases hms : matchSegs (parsePattern r.pattern) (pathSegments path) with
      | some ps =>
        rw [hms] at h
        exact Option.noConfusion h
      | none =>
        rw [hms] at h
        exact ih h
    · simp only [resolve, if_neg hm] at h ⊢
      exact ih h

theorem resolve_catch_all_route (path : String) :
    resolve "GET" path [⟨"GET", "/*", HandlerTag.errorPage "Nothing here"⟩] =
      some (⟨"GET", "/*", HandlerTag.errorPage "Nothing here"⟩,
        [("", String.intercalate "/" (pathSegments path))]) := rfl

/-! Claim theorems. -/

/-- C1: the default header set is merged into every response leaving the
Dispatcher exactly once — whichever handler produced the response, each
default header key occurs exactly once in the outgoing headers — and every
default header key is present on both the successful static-asset response
and the catch-all error response, so the two responses carry the same
default-header key set. -/
theorem claim_C1_default_headers_merged_once (hsts : Option String)
    (r : HttpResponse) (k : String)
    (hk : k ∈ (defaultHeaders hsts).map Prod.fst) :
    countKey k (respond hsts r).headers = 1 ∧
    k ∈ (respond hsts (styleSuccessResponse "body")).headers.map Prod.fst ∧
    k ∈ (respond hsts (catchAllErrorResponse "Nothing here")).headers.map Prod.fst := by
  have h1 : ∀ r2 : HttpResponse, countKey k (respond hsts r2).headers = 1 := by
    intro r2
    exact countKey_mergeDefaults_mem (defaultHeaders hsts) r2.headers k
      (defaultHeaders_keys_nodup hsts) hk
  refine ⟨h1 r, ?_, ?_⟩
  · exact countKey_pos_mem k _ (by rw [h1 (styleSuccessResponse "body")]; omega)
  · exact countKey_pos_mem k _ (by rw [h1 (catchAllErrorResponse "Nothing here")]; omega)

theorem claim_C1_default_headers_merged_once_witness :
    countKey "X-Frame-Options" (respond (some "604800") (styleSuccessResponse "body")).headers = 1 ∧
    "X-Frame-Options" ∈ (respond (some "604800") (styleSuccessResponse "body")).headers.map Prod.fst ∧
    "X-Frame-Options" ∈ (respond (some "604800") (catchAllErrorResponse "Nothing here")).headers.map Prod.fst :=
  claim_C1_default_headers_merged_once (some "604800") (styleSuccessResponse "body")
    "X-Frame-Options" (by decide)

/-- C2: every GET request whose path is matched by none of the registered
routes before the catch-all resolves, in registration order, to the
designated catch-all route with pattern "/*" and the error handler, and that
handler's response body contains the configured fallback message
"Nothing here"; /does/not/exist is one such path. -/
theorem claim_C2_catch_all_nothing_here (path : String)
    (h : resolve "GET" path routeTable.dropLast = none) :
    (resolve "GET" path routeTable).map (fun rp => (rp.1.pattern, rp.1.handler)) =
      some ("/*", HandlerTag.errorPage "Nothing here") ∧
    ∃ pre post, (catchAllErrorResponse "Nothing here").body = pre ++ "Nothing here" ++ post := by
  have hsplit : routeTable =
      routeTable.dropLast ++ [⟨"GET", "/*", HandlerTag.errorPage "Nothing here"⟩] := by
    decide
  constructor
  · rw [hsplit, resolve_append_none "GET" path _ _ h, resolve_catch_all_route path]
    rfl
  · exact ⟨"", "", by decide⟩

theorem claim_C2_catch_all_nothing_here_witness :
    (resolve "GET" "/does/not/exist" routeTable).map (fun rp => (rp.1.pattern, rp.1.handler)) =
      some ("/*", HandlerTag.errorPage "Nothing here") ∧
    ∃ pre post, (catchAllErrorResponse "Nothing here").body = pre ++ "Nothing here" ++ post :=
  claim_C2_catch_all_nothing_here "/does/not/exist" (by decide)

/-- C3: a proxy template containing a placeholder with no matching route
parameter is rejected at registration time; every proxy route registered in
the route table has all of its template placeholders among its pattern's
declared parameter names; and for every registered proxy route, template
substitution succeeds on every parameter set produced by a successful route
match, so TemplateSubstitutionError is unreachable at request time. -/
theorem claim_C3_template_params_checked :
    (∀ pattern template : String,
      (∃ n ∈ placeholders template, n ∉ patternParams pattern) →
        (registerProxy pattern template).isOk = false) ∧
    (∀ pt ∈ proxyRoutes, ∀ n ∈ placeholders pt.2, n ∈ patternParams pt.1) ∧
    (∀ pt ∈ proxyRoutes, ∀ segs ps,
      matchSegs (parsePattern pt.1) segs = some ps →
        (substTemplate ps pt.2).isSome) := by
  refine ⟨?_, ?_, ?_⟩
  · intro pattern template h
    obtain ⟨n, hn, hnp⟩ := h
    unfold registerProxy
    split
    · rename_i hall
      exfalso
      rw [List.all_eq_true] at hall
      exact hnp (List.elem_iff.mp (hall n hn))
    · rfl
  · intro pt hpt n hn
    exact proxyRoutes_placeholders_sub pt hpt n hn
  · intro pt hpt segs ps hm
    unfold substTemplate
    apply substChunks_total
    intro n hn
    have hph : n ∈ placeholders pt.2 := List.mem_filterMap.mpr ⟨Chunk.hole n, hn, rfl⟩
    have hmem : n ∈ patternParams pt.1 := proxyRoutes_placeholders_sub pt hpt n hph
    exact matchSegs_covers (parsePattern pt.1) segs ps hm n hmem

theorem claim_C3_template_params_checked_witness :
    (registerProxy "/img/*path" "https://i.example/{id}").isOk = false ∧
    (substTemplate [("path", "a/b.jpg")] "https://i.redd.it/{path}").isSome := by
  constructor
  · exact claim_C3_template_params_checked.1 "/img/*path" "https://i.example/{id}"
      ⟨"id", by decide, by decide⟩
  · exact claim_C3_template_params_checked.2.2 ("/img/*path", "https://i.redd.it/{path}")
      (by decide) ["img", "a", "b.jpg"] [("path", "a/b.jpg")] (by decide)

/-- C4: for the two memoized fetchers cached with ttl 600 seconds, a call at
t=0 invokes the producer and returns V1; a call at t=300 returns V1 without
invoking the producer; a call at t=601 invokes the producer again and returns
its new value V2. -/
theorem claim_C4_ttl_cache (α : Type) (v1 v2 : α) :
    memoize 600 0 (fun _ => v1) (none : Option (CacheEntry α)) = (v1, some ⟨v1, 0⟩, true) ∧
    memoize 600 300 (fun _ => v2) (some ⟨v1, 0⟩) = (v1, some ⟨v1, 0⟩, false) ∧
    memoize 600 601 (fun _ => v2) (some ⟨v1, 0⟩) = (v2, some ⟨v2, 601⟩, true) := by
  refine ⟨rfl, by norm_num [memoize], by norm_num [memoize]⟩

theorem claim_C4_ttl_cache_witness :
    memoize 600 0 (fun _ => 1) (none : Option (CacheEntry Nat)) = (1, some ⟨1, 0⟩, true) ∧
    memoize 600 300 (fun _ => 2) (some ⟨1, 0⟩) = (1, some ⟨1, 0⟩, false) ∧
    memoize 600 601 (fun _ => 2) (some ⟨1, 0⟩) = (2, some ⟨2, 601⟩, true) :=
  claim_C4_ttl_cache Nat 1 2

/-- C5 counterexample: the claim is false as stated — with no --hsts flag
passed at startup (explicit value absent), clap's default of 604800 still
yields a configured expire time and the Strict-Transport-Security header is
present in the default header set, so it appears on every response. -/
theorem claim_C5_counterexample :
    hstsValue none = some "604800" ∧
    "Strict-Transport-Security" ∈ (defaultHeaders (hstsValue none)).map Prod.fst := by
  exact ⟨rfl, by decide⟩

/-- C5 amended: the hsts expire time is always configured (the CLI argument
has default value 604800), and the Strict-Transport-Security header is in the
default header set iff max-age=expire_time is a valid header value — in which
case its value is exactly max-age=expire_time; it is never simply absent for
lack of configuration. -/
theorem claim_C5_hsts_amended (explicit : Option String) :
    hstsValue explicit = some (explicit.getD "604800") ∧
    ("Strict-Transport-Security" ∈ (defaultHeaders (hstsValue explicit)).map Prod.fst ↔
      headerValueValid ("max-age=" ++ explicit.getD "604800") = true) ∧
    (headerValueValid ("max-age=" ++ explicit.getD "604800") = true →
      (defaultHeaders (hstsValue explicit)).lookup "Strict-Transport-Security" =
        some ("max-age=" ++ explicit.getD "604800")) := by
  refine ⟨rfl, ?_, ?_⟩
  · cases h : headerValueValid ("max-age=" ++ explicit.getD "604800") with
    | true =>
      rw [show hstsValue explicit = some (explicit.getD "604800") from rfl]
      rw [defaultHeaders_keys_valid (explicit.getD "604800") h]
      simp
    | false =>
      rw [show hstsValue explicit = some (explicit.getD "604800") from rfl]
      rw [defaultHeaders_keys_invalid (explicit.getD "604800") h]
      constructor
      · intro hmem
        exact absurd hmem (by decide)
      · intro hfalse
        simp at hfalse
  · intro h
    rw [show hstsValue explicit = some (explicit.getD "604800") from rfl]
    simp only [defaultHeaders]
    rw [if_pos h]
    simp [insertHeader, List.lookup]

theorem claim_C5_hsts_amended_witness :
    (defaultHeaders (hstsValue none)).lookup "Strict-Transport-Security" =
      some "max-age=604800" :=
  (claim_C5_hsts_amended none).2.2 (by decide)

/-- C6: the robots.txt response depends only on the configuration read once
at startup — it is identical across requests — and its body is the
disallow-all policy exactly when the disable-indexing setting is "on", and
otherwise disallows only the /u/ and /user/ profile paths. -/
theorem claim_C6_robots_policy (cfg : List (String × String)) (r1 r2 : Request) :
    robotsHandler cfg r1 = robotsHandler cfg r2 ∧
    (getSetting cfg "REDLIB_ROBOTS_DISABLE_INDEXING" = some "on" →
      (robotsHandler cfg r1).body = "User-agent: *\nDisallow: /") ∧
    (getSetting cfg "REDLIB_ROBOTS_DISABLE_INDEXING" ≠ some "on" →
      (robotsHandler cfg r1).body = "User-agent: *\nDisallow: /u/\nDisallow: /user/") := by
  refine ⟨rfl, ?_, ?_⟩
  · intro h
    have hb : robotsDisableIndexing cfg = true := by
      simp [robotsDisableIndexing, h]
    simp [robotsHandler, resourceResponse, hb]
  · intro h
    have hb : robotsDisableIndexing cfg = false := by
      unfold robotsDisableIndexing
      cases hg : getSetting cfg "REDLIB_ROBOTS_DISABLE_INDEXING" with
      | none => rfl
      | some v =>
        have hv : v ≠ "on" := fun hv => h (by rw [hg, hv])
        simp [beq_eq_false_iff_ne, hv]
    simp [robotsHandler, resourceResponse, hb]

theorem claim_C6_robots_policy_witness :
    (robotsHandler [("REDLIB_ROBOTS_DISABLE_INDEXING", "on")] ⟨"GET", "/robots.txt"⟩).body =
      "User-agent: *\nDisallow: /" :=
  (claim_C6_robots_policy [("REDLIB_ROBOTS_DISABLE_INDEXING", "on")]
    ⟨"GET", "/robots.txt"⟩ ⟨"GET", "/robots.txt"⟩).2.1 (by decide)

/-- C7: a failing startup rate-limit probe is logged as a warning and startup
continues — all routes are registered, the listener is started, and the
process does not exit with an error when the bind succeeds — while a bind
failure ends the process with an error message. -/
theorem claim_C7_rate_limit_nonfatal (e : String) (rl : Except String Unit) :
    (mainFlow (Except.error e) (Except.ok ())).routesRegistered = routeTable.length ∧
    (mainFlow (Except.error e) (Except.ok ())).listened = true ∧
    (mainFlow (Except.error e) (Except.ok ())).exitError = none ∧
    (∃ m, LogEvent.warnMsg m ∈ (mainFlow (Except.error e) (Except.ok ())).events) ∧
    (mainFlow rl (Except.error e)).exitError = some ("Server error: " ++ e) := by
  refine ⟨rfl, rfl, rfl, ?_, ?_⟩
  · exact ⟨"Rate limit check failed: " ++ e ++
      "\nThis may cause issues with the rate limit.\nPlease report this error with the above information.",
      by simp [mainFlow]⟩
  · cases rl <;> rfl

theorem claim_C7_rate_limit_nonfatal_witness :
    (mainFlow (Except.error "connection refused") (Except.ok ())).exitError = none ∧
    (mainFlow (Except.ok ()) (Except.error "bind failed")).exitError =
      some "Server error: bind failed" :=
  ⟨(claim_C7_rate_limit_nonfatal "connection refused" (Except.ok ())).2.2.1,
   (claim_C7_rate_limit_nonfatal "bind failed" (Except.ok ())).2.2.2.2⟩

/-- C8: the claim is contradicted by the code — the /style.css handler
decodes the bundled theme assets inside the request path and unwrap aborts
the request on an asset that is not valid UTF-8: with a theme asset whose
bytes are [255] the handler reaches the unrecoverable abort (none), while a
valid asset succeeds; no startup-time validation precedes it. -/
theorem claim_C8_style_decode_abort :
    utf8Decode [255] = none ∧
    styleHandler "" [[255]] = none ∧
    (styleHandler "base" [[104, 105]]).isSome = true := by
  exact ⟨rfl, rfl, rfl⟩

/-- C9: in listener selection, ipv4-only takes precedence over ipv6-only —
with both enabled the listener is 0.0.0.0:port; with only ipv6-only enabled
it is the bracketed wildcard with the port; mere presence of the IPV4_ONLY or
IPV6_ONLY environment variable, whatever its value, enables the mode and
overrides the configured address; with neither enabled the configured address
is used. -/
theorem claim_C9_listener_selection (env4 env6 : Option String) (f4 f6 : Bool)
    (address port : String) :
    ((env4.isSome || f4) = true →
      listenerOf env4 env6 f4 f6 address port = "0.0.0.0:" ++ port) ∧
    ((env4.isSome || f4) = false → (env6.isSome || f6) = true →
      listenerOf env4 env6 f4 f6 address port = "[::]:" ++ port) ∧
    (∀ v, listenerOf (some v) env6 f4 f6 address port = "0.0.0.0:" ++ port) ∧
    (∀ v, listenerOf none (some v) false f6 address port = "[::]:" ++ port) ∧
    ((env4.isSome || f4) = false → (env6.isSome || f6) = false →
      listenerOf env4 env6 f4 f6 address port = address ++ ":" ++ port) := by
  refine ⟨?_, ?_, ?_, ?_, ?_⟩
  · intro h
    simp [listenerOf, h]
  · intro h4 h6
    simp [listenerOf, h4, h6]
  · intro v
    simp [listenerOf]
  · intro v
    simp [listenerOf]
  · intro h4 h6
    simp [listenerOf, h4, h6]

theorem claim_C9_listener_selection_witness :
    listenerOf (some "1") (some "anything") false false "[::]" "8080" = "0.0.0.0:8080" :=
  (claim_C9_listener_selection (some "1") (some "anything") false false "[::]" "8080").1
    (by decide)

/-- C10: the fetchers decode the upstream body byte-by-byte in Latin-1 style:
the decoding is total, the output has exactly one character per input byte,
and character i has code point equal to byte i — so bytes above 0x7F become
the characters U+0080..U+00FF rather than a UTF-8 decoding error. -/
theorem claim_C10_latin1_decode (bytes : List (Fin 256)) :
    (bodyToChars bytes).length = bytes.length ∧
    (bodyToChars bytes).map Char.toNat = bytes.map Fin.val := by
  constructor
  · simp [bodyToChars]
  · simp only [bodyToChars, List.map_map]
    exact List.map_congr_left (fun b _ => charOfNat_toNat_fin256 b)

theorem claim_C10_latin1_decode_witness :
    (bodyToChars [(65 : Fin 256), 255]).length = 2 ∧
    (bodyToChars [(65 : Fin 256), 255]).map Char.toNat = [65, 255] :=
  claim_C10_latin1_decode [65, 255]

end Redlib
